import Mathlib

/-!
Shallow embedding of the WebSocket broadcast relay in `src/server.js` of the
maktab repository, and proofs checking the specification's claims against it.

The relay keeps module-level mutable state (`transmitterSocket`, `listeners`,
`isBroadcasting`, `initSegment`, and the published snapshot
`global.__maktabBroadcast`) plus a per-connection `role` variable captured in
each connection's closure.  We model the whole system as a step function over
an explicit state record, driven by the events the `ws` server can deliver:
connection accept, inbound message (binary or control), and the `close` event.

Connections are identified by natural numbers.  Token verification
(`verifyAdminToken`) is an external collaborator (the `jose` JWT library); we
model its outcome as a boolean carried on the registration event, exactly as
the server branches on it.  Sends are recorded as `(connection, message)`
pairs; `broadcastJSON`, `broadcastBinary` and `sendListenerCount` skip sockets
whose `readyState` is not `OPEN`, mirroring the guards in the source, while
direct `ws.send` calls in the handlers are recorded unconditionally, as the
source performs them without a readiness check.

A server-initiated `ws.close()` moves a socket to the `closing` status; the
`close` event (which fires asynchronously, once the closing handshake
completes) moves it to `closed` and runs the close handler.  Messages may
still be delivered while a socket is `closing` (frames in flight), matching
the transport; the counterexample traces below avoid relying on this and use
only messages from fully open sockets.
-/

namespace Maktab

/-- The per-connection `role` variable of `server.js` (`'transmitter' |
'listener'`, with `Option` for the initial `null`). -/
inductive Role where
  | transmitter
  | listener
deriving DecidableEq, Repr

/-- Lifecycle of a connection: never seen, accepted (`OPEN`), server called
`close()` (`CLOSING`), or the `close` event has fired (`CLOSED`). -/
inductive ConnStatus where
  | fresh
  | opened
  | closing
  | closed
deriving DecidableEq, Repr

/-- The published snapshot `global.__maktabBroadcast`. -/
structure Snapshot where
  isLive : Bool
  listenerCount : Nat
deriving DecidableEq, Repr

/-- An opaque binary audio chunk. -/
abbrev Frame := List Nat

/-- Server-to-client messages of the wire protocol (`ready`,
`broadcast-start`, `broadcast-end`, `error`, `listener-count`) together with
forwarded binary frames. -/
inductive ServerMsg where
  | ready
  | broadcastStart
  | broadcastEnd
  | error (message : String)
  | listenerCount (count : Nat)
  | binary (data : Frame)
deriving DecidableEq, Repr

/-- Client-to-server inbound payloads: a binary frame, the three recognized
control messages (with the token-verification outcome for `transmitter`),
unparseable text, or parseable JSON of an unrecognized type. -/
inductive ClientMsg where
  | binary (data : Frame)
  | transmitter (tokenValid : Bool)
  | listener
  | stop
  | invalidJSON
  | unrecognized
deriving DecidableEq, Repr

/-- Events the WebSocket server delivers to the handler code. -/
inductive Event where
  | connect (c : Nat)
  | message (c : Nat) (m : ClientMsg)
  | closeEvt (c : Nat)
deriving DecidableEq, Repr

/-- The complete mutable state of `server.js`: the module-level broadcast
variables, the published snapshot, and the per-connection `role` closure
variables and socket statuses. -/
structure ServerState where
  transmitterSocket : Option Nat
  listeners : List Nat
  isBroadcasting : Bool
  initSegment : Option Frame
  snapshot : Snapshot
  role : Nat → Option Role
  status : Nat → ConnStatus

/-- Initial state: no transmitter, no listeners, not broadcasting, no init
segment, snapshot `{ isLive: false, listenerCount: 0 }`. -/
def initState : ServerState where
  transmitterSocket := none
  listeners := []
  isBroadcasting := false
  initSegment := none
  snapshot := ⟨false, 0⟩
  role := fun _ => none
  status := fun _ => ConnStatus.fresh

/-- `broadcastJSON`: send a control message to every listener whose socket is
`OPEN`. -/
def broadcastJSON (st : ServerState) (m : ServerMsg) : List (Nat × ServerMsg) :=
  (st.listeners.filter fun l => st.status l == ConnStatus.opened).map fun l => (l, m)

/-- `broadcastBinary`: forward a binary frame to every listener whose socket
is `OPEN`. -/
def broadcastBinary (st : ServerState) (data : Frame) : List (Nat × ServerMsg) :=
  (st.listeners.filter fun l => st.status l == ConnStatus.opened).map
    fun l => (l, ServerMsg.binary data)

/-- `updateGlobalState`: publish `{ isLive: isBroadcasting, listenerCount:
listeners.size }`. -/
def updateGlobal (st : ServerState) : ServerState :=
  { st with snapshot := ⟨st.isBroadcasting, st.listeners.length⟩ }

/-- `sendListenerCount`: send the current listener count to the transmitter
socket if it exists and is `OPEN`. -/
def sendListenerCount (st : ServerState) : List (Nat × ServerMsg) :=
  match st.transmitterSocket with
  | some t =>
      if st.status t == ConnStatus.opened then
        [(t, ServerMsg.listenerCount st.listeners.length)]
      else []
  | none => []

/-- JS `Set.add`: append if not already a member (insertion order kept). -/
def setAdd (l : List Nat) (c : Nat) : List Nat :=
  if c ∈ l then l else l ++ [c]

/-- One step of the server: the `connection`/`message`/`close` handlers of
`server.js`, translated clause by clause.  Returns the new state and the list
of sends performed, in order. -/
def step (st : ServerState) (e : Event) : ServerState × List (Nat × ServerMsg) :=
  match e with
  | .connect c =>
      ({ st with role := Function.update st.role c none,
                 status := Function.update st.status c ConnStatus.opened }, [])
  | .message c m =>
      match m with
      | .binary data =>
          -- `if (role !== 'transmitter') return;` then cache first chunk,
          -- then `broadcastBinary(data)`.
          if st.role c = some Role.transmitter then
            let st1 :=
              match st.initSegment with
              | none => { st with initSegment := some data }
              | some _ => st
            (st1, broadcastBinary st1 data)
          else (st, [])
      | .invalidJSON =>
          (st, [(c, ServerMsg.error "Invalid JSON")])
      | .transmitter tokenValid =>
          if tokenValid then
            -- evict a still-open previous transmitter, then install this one
            let st1 :=
              match st.transmitterSocket with
              | some old =>
                  if st.status old = ConnStatus.opened then
                    { st with status := Function.update st.status old ConnStatus.closing }
                  else st
              | none => st
            let st2 := { st1 with
              role := Function.update st1.role c (some Role.transmitter)
              transmitterSocket := some c
              isBroadcasting := true
              initSegment := none }
            (updateGlobal st2,
             (c, ServerMsg.ready) :: broadcastJSON st2 ServerMsg.broadcastStart)
          else
            -- `{type:'error', message:'Unauthorized'}` then `ws.close()`
            ({ st with status := Function.update st.status c ConnStatus.closing },
             [(c, ServerMsg.error "Unauthorized")])
      | .listener =>
          let st1 := { st with
            role := Function.update st.role c (some Role.listener)
            listeners := setAdd st.listeners c }
          let st2 := updateGlobal st1
          (st2,
           sendListenerCount st2 ++
             (if st2.isBroadcasting then
                (c, ServerMsg.broadcastStart) ::
                  (match st2.initSegment with
                   | some seg => [(c, ServerMsg.binary seg)]
                   | none => [])
              else [(c, ServerMsg.broadcastEnd)]))
      | .stop =>
          if st.role c = some Role.transmitter then
            let st1 := { st with
              isBroadcasting := false
              transmitterSocket := none
              initSegment := none }
            let st2 := updateGlobal st1
            ({ st2 with status := Function.update st2.status c ConnStatus.closing },
             broadcastJSON st1 ServerMsg.broadcastEnd)
          else (st, [])
      | .unrecognized =>
          (st, [])
  | .closeEvt c =>
      let st0 := { st with status := Function.update st.status c ConnStatus.closed }
      match st.role c with
      | some .transmitter =>
          let st1 := { st0 with
            isBroadcasting := false
            transmitterSocket := none
            initSegment := none }
          (updateGlobal st1, broadcastJSON st1 ServerMsg.broadcastEnd)
      | some .listener =>
          let st1 := { st0 with listeners := st0.listeners.erase c }
          let st2 := updateGlobal st1
          (st2, sendListenerCount st2)
      | none => (st0, [])

/-- Run a sequence of events from a given state, concatenating all sends. -/
def runFrom (st : ServerState) : List Event → ServerState × List (Nat × ServerMsg)
  | [] => (st, [])
  | e :: es =>
      let p := step st e
      let q := runFrom p.1 es
      (q.1, p.2 ++ q.2)

/-- Run a sequence of events from the initial state. -/
def run (t : List Event) : ServerState × List (Nat × ServerMsg) :=
  runFrom initState t

/-- An event is deliverable: `connect` only for a never-seen id, messages and
the `close` event only for sockets that are open or still closing. -/
def eventOK (st : ServerState) : Event → Bool
  | .connect c => st.status c == ConnStatus.fresh
  | .message c _ =>
      st.status c == ConnStatus.opened || st.status c == ConnStatus.closing
  | .closeEvt c =>
      st.status c == ConnStatus.opened || st.status c == ConnStatus.closing

/-- All events of a trace are deliverable in sequence from `st`. -/
def validFrom (st : ServerState) : List Event → Bool
  | [] => true
  | e :: es => eventOK st e && validFrom (step st e).1 es

/-- A trace is realizable from the initial state. -/
def ValidTrace (t : List Event) : Bool :=
  validFrom initState t

/-- Messages delivered to connection `c`, in order. -/
def sentTo (c : Nat) (out : List (Nat × ServerMsg)) : List ServerMsg :=
  (out.filter fun p => p.1 == c).map Prod.snd

/-- No connection changes role directly: the event is not a
register-as-transmitter from a current listener-set member, nor a
register-as-listener from the currently registered transmitter. -/
def eventNoSwap (st : ServerState) : Event → Bool
  | .message c (ClientMsg.transmitter _) => decide (c ∉ st.listeners)
  | .message c ClientMsg.listener => decide (st.transmitterSocket ≠ some c)
  | _ => true

/-- `eventNoSwap` holds at every step of the trace. -/
def noRoleSwapFrom (st : ServerState) : List Event → Bool
  | [] => true
  | e :: es => eventNoSwap st e && noRoleSwapFrom (step st e).1 es

/-- No connection is simultaneously the registered transmitter and a member
of the listener set. -/
def RolesDisjoint (st : ServerState) : Prop :=
  ∀ c, st.transmitterSocket = some c → c ∉ st.listeners

/-! ## General lemmas about the fan-out helpers -/

/-- A listener that is in the set and open receives every `broadcastJSON`. -/
theorem mem_broadcastJSON {st : ServerState} {m : ServerMsg} {l : Nat}
    (hl : l ∈ st.listeners) (hop : st.status l = ConnStatus.opened) :
    (l, m) ∈ broadcastJSON st m := by
  simp only [broadcastJSON, List.mem_map]
  exact ⟨l, List.mem_filter.mpr ⟨hl, by simp [hop]⟩, rfl⟩

/-- A listener that is in the set and open receives every `broadcastBinary`. -/
theorem mem_broadcastBinary {st : ServerState} {data : Frame} {l : Nat}
    (hl : l ∈ st.listeners) (hop : st.status l = ConnStatus.opened) :
    (l, ServerMsg.binary data) ∈ broadcastBinary st data := by
  simp only [broadcastBinary, List.mem_map]
  exact ⟨l, List.mem_filter.mpr ⟨hl, by simp [hop]⟩, rfl⟩

/-- Every message produced by `broadcastJSON` is the broadcast message. -/
theorem broadcastJSON_msg {st : ServerState} {m : ServerMsg} {p : Nat × ServerMsg}
    (h : p ∈ broadcastJSON st m) : p.2 = m := by
  simp only [broadcastJSON, List.mem_map] at h
  obtain ⟨l, -, rfl⟩ := h
  rfl

/-- Every message produced by `broadcastBinary` is the binary frame. -/
theorem broadcastBinary_msg {st : ServerState} {data : Frame} {p : Nat × ServerMsg}
    (h : p ∈ broadcastBinary st data) : p.2 = ServerMsg.binary data := by
  simp only [broadcastBinary, List.mem_map] at h
  obtain ⟨l, -, rfl⟩ := h
  rfl

/-- Every message produced by `sendListenerCount` carries the current
listener-set size. -/
theorem sendListenerCount_msg {st : ServerState} {p : Nat × ServerMsg}
    (h : p ∈ sendListenerCount st) :
    p.2 = ServerMsg.listenerCount st.listeners.length := by
  unfold sendListenerCount at h
  split at h
  · split at h
    · simp only [List.mem_singleton] at h
      subst h
      rfl
    · simp at h
  · simp at h

/-- Stop handler in one equation: for the connection whose role is
`transmitter`, a `stop` clears the broadcast state, republishes the snapshot,
fans out `broadcast-end` (computed on the pre-close statuses) and closes the
sender. -/
theorem stop_step_eq (st : ServerState) (c : Nat)
    (hrole : st.role c = some Role.transmitter) :
    step st (Event.message c ClientMsg.stop)
      = ({ st with
             transmitterSocket := none
             isBroadcasting := false
             initSegment := none
             snapshot := ⟨false, st.listeners.length⟩
             status := Function.update st.status c ConnStatus.closing },
         broadcastJSON { st with
             isBroadcasting := false
             transmitterSocket := none
             initSegment := none } ServerMsg.broadcastEnd) := by
  rw [step, if_pos hrole]
  rfl

/-- Close handler in one equation for a connection whose role is
`transmitter`: the state is wiped, the snapshot republished and
`broadcast-end` fanned out. -/
theorem close_transmitter_step_eq (st : ServerState) (c : Nat)
    (hrole : st.role c = some Role.transmitter) :
    step st (Event.closeEvt c)
      = ({ st with
             status := Function.update st.status c ConnStatus.closed
             isBroadcasting := false
             transmitterSocket := none
             initSegment := none
             snapshot := ⟨false, st.listeners.length⟩ },
         broadcastJSON { st with
             status := Function.update st.status c ConnStatus.closed
             isBroadcasting := false
             transmitterSocket := none
             initSegment := none } ServerMsg.broadcastEnd) := by
  rw [step, hrole]
  rfl

/-- Every step keeps the published `listenerCount` equal to the size of the
listener set: handlers that touch the set call `updateGlobalState` afterwards,
and the others change neither. -/
theorem snapshot_count_step (st : ServerState) (e : Event)
    (h : st.snapshot.listenerCount = st.listeners.length) :
    (step st e).1.snapshot.listenerCount = (step st e).1.listeners.length := by
  cases e with
  | connect c => simpa [step] using h
  | closeEvt c =>
      rcases hr : st.role c with _ | r
      · simpa [step, hr] using h
      · cases r <;> simp [step, hr, updateGlobal]
  | message c m =>
      cases m with
      | binary data =>
          by_cases hrole : st.role c = some Role.transmitter
          · rcases hseg : st.initSegment with _ | seg <;>
              simpa [step, hrole, hseg] using h
          · simpa [step, hrole] using h
      | transmitter tv =>
          cases tv
          · simpa [step] using h
          · rcases hts : st.transmitterSocket with _ | old
            · simp [step, hts, updateGlobal]
            · by_cases hst : st.status old = ConnStatus.opened <;>
                simp [step, hts, hst, updateGlobal]
      | listener => simp [step, updateGlobal]
      | stop =>
          by_cases hrole : st.role c = some Role.transmitter
          · simp [step, hrole, updateGlobal]
          · simpa [step, hrole] using h
      | invalidJSON => simpa [step] using h
      | unrecognized => simpa [step] using h

/-- The snapshot accuracy invariant holds along any event sequence. -/
theorem snapshot_count_runFrom (t : List Event) (st : ServerState)
    (h : st.snapshot.listenerCount = st.listeners.length) :
    (runFrom st t).1.snapshot.listenerCount = (runFrom st t).1.listeners.length := by
  induction t generalizing st with
  | nil => simpa [runFrom] using h
  | cons e es ih =>
      simpa [runFrom] using ih (step st e).1 (snapshot_count_step st e h)

/-- Any `listener-count` message a step emits carries the size of the
listener set of the state the step produces: `sendListenerCount` always runs
after the set mutation it reports. -/
theorem listenerCount_msg_step (st : ServerState) (e : Event) (c n : Nat)
    (h : (c, ServerMsg.listenerCount n) ∈ (step st e).2) :
    n = (step st e).1.listeners.length := by
  cases e with
  | connect c0 => simp [step] at h
  | closeEvt c0 =>
      rcases hr : st.role c0 with _ | r
      · simp [step, hr] at h
      · cases r with
        | transmitter =>
            rw [step] at h
            simp only [hr] at h
            exact absurd (broadcastJSON_msg h) (by simp)
        | listener =>
            rw [step] at h ⊢
            simp only [hr] at h ⊢
            have := sendListenerCount_msg h
            simp only [ServerMsg.listenerCount.injEq] at this
            simpa [updateGlobal] using this
  | message c0 m =>
      cases m with
      | binary data =>
          by_cases hrole : st.role c0 = some Role.transmitter
          · rw [step] at h
            simp only [hrole, if_pos] at h
            rcases hseg : st.initSegment with _ | seg <;> simp only [hseg] at h <;>
              exact absurd (broadcastBinary_msg h) (by simp)
          · simp [step, hrole] at h
      | transmitter tv =>
          cases tv
          · simp [step] at h
          · rw [step] at h
            rcases List.mem_cons.mp h with h1 | h1
            · exact absurd h1 (by simp)
            · exact absurd (broadcastJSON_msg h1) (by simp)
      | listener =>
          rw [step] at h ⊢
          simp only [List.mem_append] at h
          rcases h with h | h
          · have := sendListenerCount_msg h
            simp only [ServerMsg.listenerCount.injEq] at this
            simpa [updateGlobal] using this
          · by_cases hb : st.isBroadcasting <;> simp only [updateGlobal, hb] at h
            · rcases hseg : st.initSegment with _ | seg <;>
                simp [hseg, List.mem_cons] at h
            · simp at h
      | stop =>
          by_cases hrole : st.role c0 = some Role.transmitter
          · rw [step] at h
            simp only [hrole, if_pos] at h
            exact absurd (broadcastJSON_msg h) (by simp)
          · simp [step, hrole] at h
      | invalidJSON => simp [step] at h
      | unrecognized => simp [step] at h

/-- One step preserves transmitter/listener role disjointness, as long as the
event is not a cross-role registration (`eventNoSwap`). -/
theorem rolesDisjoint_step (st : ServerState) (e : Event)
    (hinv : RolesDisjoint st) (hok : eventNoSwap st e = true) :
    RolesDisjoint (step st e).1 := by
  cases e with
  | connect c => exact fun d hd => hinv d hd
  | closeEvt c =>
      rcases hr : st.role c with _ | r
      · intro d hd
        rw [step] at hd ⊢
        simp only [hr] at hd ⊢
        exact hinv d hd
      · cases r with
        | transmitter =>
            intro d hd
            rw [step] at hd
            simp only [hr, updateGlobal] at hd
            exact absurd hd (by simp)
        | listener =>
            intro d hd
            rw [step] at hd ⊢
            simp only [hr, updateGlobal] at hd ⊢
            exact fun hmem => hinv d hd (List.mem_of_mem_erase hmem)
  | message c m =>
      cases m with
      | binary data =>
          by_cases hrole : st.role c = some Role.transmitter
          · intro d hd
            rw [step] at hd ⊢
            simp only [hrole, if_pos] at hd ⊢
            rcases hseg : st.initSegment with _ | seg <;>
              simp only [hseg] at hd ⊢ <;> exact hinv d hd
          · intro d hd
            rw [step] at hd ⊢
            simp only [hrole, if_neg, if_false] at hd ⊢
            exact hinv d hd
      | transmitter tv =>
          have hc : c ∉ st.listeners := of_decide_eq_true hok
          cases tv
          · exact fun d hd => hinv d hd
          · intro d hd
            rw [step] at hd ⊢
            rcases hts : st.transmitterSocket with _ | old
            · simp only [if_true, hts, updateGlobal, Option.some.injEq] at hd ⊢
              subst hd
              exact hc
            · by_cases hst : st.status old = ConnStatus.opened <;>
                simp only [if_true, hts, hst, if_pos, if_neg, if_false, updateGlobal,
                  Option.some.injEq, not_false_eq_true] at hd ⊢ <;>
                (subst hd; exact hc)
      | listener =>
          have hne : st.transmitterSocket ≠ some c := of_decide_eq_true hok
          intro d hd
          rw [step] at hd ⊢
          simp only [updateGlobal, setAdd] at hd ⊢
          by_cases hmem : c ∈ st.listeners
          · simp only [hmem, if_pos] at hd ⊢
            exact hinv d hd
          · simp only [hmem, if_neg, if_false, List.mem_append, List.mem_singleton,
              not_or] at hd ⊢
            refine ⟨hinv d hd, ?_⟩
            rintro rfl
            exact hne hd
      | stop =>
          by_cases hrole : st.role c = some Role.transmitter
          · intro d hd
            rw [step] at hd
            simp only [hrole, if_pos, updateGlobal] at hd
            exact absurd hd (by simp)
          · intro d hd
            rw [step] at hd ⊢
            simp only [hrole, if_neg, if_false] at hd ⊢
            exact hinv d hd
      | invalidJSON => exact fun d hd => hinv d hd
      | unrecognized => exact fun d hd => hinv d hd

/-- Role disjointness is preserved along any trace without cross-role
registrations. -/
theorem rolesDisjoint_runFrom (t : List Event) (st : ServerState)
    (hinv : RolesDisjoint st) (h : noRoleSwapFrom st t = true) :
    RolesDisjoint (runFrom st t).1 := by
  induction t generalizing st with
  | nil => simpa [runFrom] using hinv
  | cons e es ih =>
      simp only [noRoleSwapFrom, Bool.and_eq_true] at h
      simpa [runFrom] using ih (step st e).1 (rolesDisjoint_step st e hinv h.1) h.2

/-! ## Claim theorems -/

/-- Claim C3: a register-as-transmitter message whose token fails
verification draws exactly one reply, `error "Unauthorized"`, and the server
closes the connection (`ws.close()`, so the socket moves to `closing`); no
broadcast state transition occurs: `isBroadcasting`, `transmitterSocket`,
`initSegment`, the listener set, the published snapshot, and every
connection's role are unchanged. -/
theorem c3_invalid_token_rejected (st : ServerState) (c : Nat) :
    (step st (Event.message c (ClientMsg.transmitter false))).2
      = [(c, ServerMsg.error "Unauthorized")] ∧
    (step st (Event.message c (ClientMsg.transmitter false))).1.status c
      = ConnStatus.closing ∧
    (step st (Event.message c (ClientMsg.transmitter false))).1.isBroadcasting
      = st.isBroadcasting ∧
    (step st (Event.message c (ClientMsg.transmitter false))).1.transmitterSocket
      = st.transmitterSocket ∧
    (step st (Event.message c (ClientMsg.transmitter false))).1.initSegment
      = st.initSegment ∧
    (step st (Event.message c (ClientMsg.transmitter false))).1.listeners
      = st.listeners ∧
    (step st (Event.message c (ClientMsg.transmitter false))).1.snapshot
      = st.snapshot ∧
    (step st (Event.message c (ClientMsg.transmitter false))).1.role
      = st.role :=
  ⟨rfl, by simp [step], rfl, rfl, rfl, rfl, rfl, rfl⟩

/-- Claim C4: an inbound text frame that fails JSON parsing, on any
connection in any role and in any state, draws exactly one reply,
`error "Invalid JSON"`, and leaves the entire server state — transmitter
slot, listener set, live flag, init segment, snapshot, roles and socket
statuses (so the connection stays open) — literally unchanged. -/
theorem c4_invalid_json_recoverable (st : ServerState) (c : Nat) :
    step st (Event.message c ClientMsg.invalidJSON)
      = (st, [(c, ServerMsg.error "Invalid JSON")]) :=
  rfl

/-- Claim C1 (failing): in the trace where listener 3 is watching, connection
1 registers as transmitter, connection 2 registers as transmitter (evicting
1, which the registration event closes and replaces — the prefix facts below
show 2 authoritative and 1 `closing` within that event), the pending `close`
event of evicted connection 1 then ends the whole broadcast: the close
handler keys on the stale per-connection `role`, so `isBroadcasting` falls to
`false`, the transmitter slot is cleared although connection 2 is the
authoritative transmitter, and listener 3 receives `broadcast-end` — not the
claimed one continuous `broadcast-start` followed by frames from
transmitter 2. -/
theorem c1_eviction_close_kills_broadcast :
    ValidTrace [Event.connect 1, Event.connect 2, Event.connect 3,
        Event.message 3 ClientMsg.listener,
        Event.message 1 (ClientMsg.transmitter true),
        Event.message 2 (ClientMsg.transmitter true), Event.closeEvt 1] = true ∧
    (run [Event.connect 1, Event.connect 2, Event.connect 3,
        Event.message 3 ClientMsg.listener,
        Event.message 1 (ClientMsg.transmitter true),
        Event.message 2 (ClientMsg.transmitter true)]).1.transmitterSocket = some 2 ∧
    (run [Event.connect 1, Event.connect 2, Event.connect 3,
        Event.message 3 ClientMsg.listener,
        Event.message 1 (ClientMsg.transmitter true),
        Event.message 2 (ClientMsg.transmitter true)]).1.isBroadcasting = true ∧
    (run [Event.connect 1, Event.connect 2, Event.connect 3,
        Event.message 3 ClientMsg.listener,
        Event.message 1 (ClientMsg.transmitter true),
        Event.message 2 (ClientMsg.transmitter true)]).1.status 1
      = ConnStatus.closing ∧
    (run [Event.connect 1, Event.connect 2, Event.connect 3,
        Event.message 3 ClientMsg.listener,
        Event.message 1 (ClientMsg.transmitter true),
        Event.message 2 (ClientMsg.transmitter true),
        Event.closeEvt 1]).1.isBroadcasting = false ∧
    (run [Event.connect 1, Event.connect 2, Event.connect 3,
        Event.message 3 ClientMsg.listener,
        Event.message 1 (ClientMsg.transmitter true),
        Event.message 2 (ClientMsg.transmitter true),
        Event.closeEvt 1]).1.transmitterSocket = none ∧
    sentTo 3 (run [Event.connect 1, Event.connect 2, Event.connect 3,
        Event.message 3 ClientMsg.listener,
        Event.message 1 (ClientMsg.transmitter true),
        Event.message 2 (ClientMsg.transmitter true),
        Event.closeEvt 1]).2
      = [ServerMsg.broadcastEnd, ServerMsg.broadcastStart,
         ServerMsg.broadcastStart, ServerMsg.broadcastEnd] := by
  decide

/-- Claim C2 (failing): the close event of an already-evicted transmitter is
not a no-op.  After connection 2 evicts connection 1, connection 1 is no
longer the registered transmitter (`transmitterSocket = some 2`), yet its
`close` event clears the transmitter slot, drives the broadcast to idle and
republishes the snapshot as not-live: the close handler tests the stale
per-connection `role` instead of comparing the socket against
`transmitterSocket`. -/
theorem c2_stale_close_clears_live_state :
    ValidTrace [Event.connect 1, Event.connect 2,
        Event.message 1 (ClientMsg.transmitter true),
        Event.message 2 (ClientMsg.transmitter true), Event.closeEvt 1] = true ∧
    (run [Event.connect 1, Event.connect 2,
        Event.message 1 (ClientMsg.transmitter true),
        Event.message 2 (ClientMsg.transmitter true)]).1.transmitterSocket = some 2 ∧
    (run [Event.connect 1, Event.connect 2,
        Event.message 1 (ClientMsg.transmitter true),
        Event.message 2 (ClientMsg.transmitter true)]).1.isBroadcasting = true ∧
    (run [Event.connect 1, Event.connect 2,
        Event.message 1 (ClientMsg.transmitter true),
        Event.message 2 (ClientMsg.transmitter true)]).1.snapshot
      = ⟨true, 0⟩ ∧
    (run [Event.connect 1, Event.connect 2,
        Event.message 1 (ClientMsg.transmitter true),
        Event.message 2 (ClientMsg.transmitter true),
        Event.closeEvt 1]).1.isBroadcasting = false ∧
    (run [Event.connect 1, Event.connect 2,
        Event.message 1 (ClientMsg.transmitter true),
        Event.message 2 (ClientMsg.transmitter true),
        Event.closeEvt 1]).1.transmitterSocket = none ∧
    (run [Event.connect 1, Event.connect 2,
        Event.message 1 (ClientMsg.transmitter true),
        Event.message 2 (ClientMsg.transmitter true),
        Event.closeEvt 1]).1.snapshot = ⟨false, 0⟩ := by
  decide

/-- Claim C7 (failing): a `stop` from a connection that is not the current
transmitter is not silently ignored.  After eviction and the evicted
connection's close event, the transmitter slot is empty (`none`), so open
connection 2 is not the registered transmitter; yet because its
per-connection `role` is still `'transmitter'`, its `stop` is honored: the
watching listener 3 receives an extra `broadcast-end` (a reply is produced)
and connection 2 is closed (`closing`) instead of staying open. -/
theorem c7_stale_stop_honored :
    ValidTrace [Event.connect 1, Event.connect 2, Event.connect 3,
        Event.message 3 ClientMsg.listener,
        Event.message 1 (ClientMsg.transmitter true),
        Event.message 2 (ClientMsg.transmitter true), Event.closeEvt 1,
        Event.message 2 ClientMsg.stop] = true ∧
    (run [Event.connect 1, Event.connect 2, Event.connect 3,
        Event.message 3 ClientMsg.listener,
        Event.message 1 (ClientMsg.transmitter true),
        Event.message 2 (ClientMsg.transmitter true),
        Event.closeEvt 1]).1.transmitterSocket = none ∧
    (run [Event.connect 1, Event.connect 2, Event.connect 3,
        Event.message 3 ClientMsg.listener,
        Event.message 1 (ClientMsg.transmitter true),
        Event.message 2 (ClientMsg.transmitter true),
        Event.closeEvt 1]).1.status 2 = ConnStatus.opened ∧
    sentTo 3 (run [Event.connect 1, Event.connect 2, Event.connect 3,
        Event.message 3 ClientMsg.listener,
        Event.message 1 (ClientMsg.transmitter true),
        Event.message 2 (ClientMsg.transmitter true), Event.closeEvt 1,
        Event.message 2 ClientMsg.stop]).2
      = [ServerMsg.broadcastEnd, ServerMsg.broadcastStart,
         ServerMsg.broadcastStart, ServerMsg.broadcastEnd,
         ServerMsg.broadcastEnd] ∧
    (run [Event.connect 1, Event.connect 2, Event.connect 3,
        Event.message 3 ClientMsg.listener,
        Event.message 1 (ClientMsg.transmitter true),
        Event.message 2 (ClientMsg.transmitter true), Event.closeEvt 1,
        Event.message 2 ClientMsg.stop]).1.status 2 = ConnStatus.closing := by
  decide

/-- Claim C8 (failing): `initSegment` can be non-null while `live` is false.
After connection 2 evicts connection 1 and the evicted connection's close
event has (wrongly) driven the state to idle, open connection 2 — whose
per-connection `role` is still `'transmitter'` — sends a binary frame: the
handler caches it as the init segment while `isBroadcasting` and the
published snapshot both say not-live. -/
theorem c8_init_segment_cached_while_idle :
    ValidTrace [Event.connect 1, Event.connect 2,
        Event.message 1 (ClientMsg.transmitter true),
        Event.message 2 (ClientMsg.transmitter true), Event.closeEvt 1,
        Event.message 2 (ClientMsg.binary [9])] = true ∧
    (run [Event.connect 1, Event.connect 2,
        Event.message 1 (ClientMsg.transmitter true),
        Event.message 2 (ClientMsg.transmitter true), Event.closeEvt 1,
        Event.message 2 (ClientMsg.binary [9])]).1.isBroadcasting = false ∧
    (run [Event.connect 1, Event.connect 2,
        Event.message 1 (ClientMsg.transmitter true),
        Event.message 2 (ClientMsg.transmitter true), Event.closeEvt 1,
        Event.message 2 (ClientMsg.binary [9])]).1.initSegment = some [9] ∧
    (run [Event.connect 1, Event.connect 2,
        Event.message 1 (ClientMsg.transmitter true),
        Event.message 2 (ClientMsg.transmitter true), Event.closeEvt 1,
        Event.message 2 (ClientMsg.binary [9])]).1.snapshot.isLive = false := by
  decide

/-- Claim C5 (counterexample to the idle part): listener 3 joins while the
broadcast is idle (the eviction-close race already tore the live state down)
and receives `broadcast-end`, yet the still-open connection 2 — whose stale
role is `'transmitter'` — sends a frame, and listener 3 receives binary data
with no `broadcast-start` in between. -/
theorem c5_idle_listener_receives_binary :
    ValidTrace [Event.connect 1, Event.connect 2,
        Event.message 1 (ClientMsg.transmitter true),
        Event.message 2 (ClientMsg.transmitter true), Event.closeEvt 1,
        Event.connect 3, Event.message 3 ClientMsg.listener,
        Event.message 2 (ClientMsg.binary [7])] = true ∧
    (run [Event.connect 1, Event.connect 2,
        Event.message 1 (ClientMsg.transmitter true),
        Event.message 2 (ClientMsg.transmitter true), Event.closeEvt 1,
        Event.connect 3]).1.isBroadcasting = false ∧
    sentTo 3 (run [Event.connect 1, Event.connect 2,
        Event.message 1 (ClientMsg.transmitter true),
        Event.message 2 (ClientMsg.transmitter true), Event.closeEvt 1,
        Event.connect 3, Event.message 3 ClientMsg.listener,
        Event.message 2 (ClientMsg.binary [7])]).2
      = [ServerMsg.broadcastEnd, ServerMsg.binary [7]] := by
  decide

/-- Claim C5 (amended): a connection registering as listener while live
receives exactly `broadcast-start` and then the cached init segment if one
exists, and, as a member of the listener set with an open socket, every frame
subsequently accepted from a transmitter-role connection; registering while
idle it receives exactly `broadcast-end`; and a binary frame event yields no
output at all unless its sender's role is `transmitter` — so binary data can
reach an idle-joined listener only from a connection with a stale
transmitter role. -/
theorem c5_listener_join_delivery (st : ServerState) (c x : Nat) (f : Frame)
    (hns : st.transmitterSocket ≠ some c) :
    (st.isBroadcasting = true →
      sentTo c (step st (Event.message c ClientMsg.listener)).2
        = ServerMsg.broadcastStart ::
            (match st.initSegment with
             | some seg => [ServerMsg.binary seg]
             | none => [])) ∧
    (st.isBroadcasting = false →
      sentTo c (step st (Event.message c ClientMsg.listener)).2
        = [ServerMsg.broadcastEnd]) ∧
    (c ∈ st.listeners → st.status c = ConnStatus.opened →
      st.role x = some Role.transmitter →
      (c, ServerMsg.binary f) ∈ (step st (Event.message x (ClientMsg.binary f))).2) ∧
    (st.role x ≠ some Role.transmitter →
      step st (Event.message x (ClientMsg.binary f)) = (st, [])) := by
  refine ⟨?_, ?_, ?_, ?_⟩
  · intro hlive
    rcases hts : st.transmitterSocket with _ | t
    · rcases hseg : st.initSegment with _ | seg <;>
        simp [step, sentTo, sendListenerCount, updateGlobal, hts, hseg, hlive]
    · have hne : t ≠ c := fun h => hns (h ▸ hts)
      rcases hseg : st.initSegment with _ | seg <;>
        rcases hst : st.status t == ConnStatus.opened <;>
        simp [step, sentTo, sendListenerCount, updateGlobal, hts, hseg, hlive, hst, hne]
  · intro hidle
    rcases hts : st.transmitterSocket with _ | t
    · simp [step, sentTo, sendListenerCount, updateGlobal, hts, hidle]
    · have hne : t ≠ c := fun h => hns (h ▸ hts)
      rcases hst : st.status t == ConnStatus.opened <;>
        simp [step, sentTo, sendListenerCount, updateGlobal, hts, hidle, hst, hne]
  · intro hc hop hrole
    simp only [step, hrole, if_pos]
    rcases hseg : st.initSegment with _ | seg <;> simp only [hseg]
    · exact mem_broadcastBinary hc hop
    · exact mem_broadcastBinary hc hop
  · intro h
    simp [step, h]

/-- Claim C5 witness: in the state reached after connection 1 registers as
transmitter, a fresh connection 2 joining as listener receives exactly
`broadcast-start` (no frame has been sent yet, so there is no init
segment). -/
theorem c5_listener_join_delivery_witness :
    sentTo 2 (step (run [Event.connect 1,
        Event.message 1 (ClientMsg.transmitter true)]).1
      (Event.message 2 ClientMsg.listener)).2 = [ServerMsg.broadcastStart] := by
  have h := (c5_listener_join_delivery (run [Event.connect 1,
      Event.message 1 (ClientMsg.transmitter true)]).1 2 1 [5]
      (by decide)).1 (by decide)
  exact h

/-- Claim C6: in every state reachable by any event sequence the published
snapshot's `listenerCount` equals the size of the listener set, and every
`listener-count` control message emitted by any further step carries the size
of the listener set of the state that step produces (the instant the message
is sent). -/
theorem c6_listener_count_accurate (t : List Event) (e : Event) (c n : Nat) :
    (run t).1.snapshot.listenerCount = (run t).1.listeners.length ∧
    ((c, ServerMsg.listenerCount n) ∈ (step (run t).1 e).2 →
      n = (step (run t).1 e).1.listeners.length) :=
  ⟨snapshot_count_runFrom t initState rfl,
   fun h => listenerCount_msg_step (run t).1 e c n h⟩

/-- Claim C6 witness: with transmitter 1 installed, listener 2 joining makes
the server send `listener-count 1` to the transmitter, and 1 is indeed the
resulting listener-set size. -/
theorem c6_listener_count_accurate_witness :
    (1, ServerMsg.listenerCount 1) ∈
      (step (run [Event.connect 1, Event.message 1 (ClientMsg.transmitter true),
          Event.connect 2]).1 (Event.message 2 ClientMsg.listener)).2 ∧
    1 = (step (run [Event.connect 1, Event.message 1 (ClientMsg.transmitter true),
          Event.connect 2]).1 (Event.message 2 ClientMsg.listener)).1.listeners.length :=
  ⟨by decide,
   (c6_listener_count_accurate
      [Event.connect 1, Event.message 1 (ClientMsg.transmitter true), Event.connect 2]
      (Event.message 2 ClientMsg.listener) 1 1).2 (by decide)⟩

/-- Claim C9 (counterexample): a connection that registered as transmitter
and then sends register-as-listener is simultaneously the registered
transmitter (`transmitterSocket = some 1`) and a member of the listener set —
the listener handler overwrites the role and adds the socket to the set but
never vacates the transmitter slot. -/
theorem c9_transmitter_then_listener_dual_role :
    ValidTrace [Event.connect 1, Event.message 1 (ClientMsg.transmitter true),
        Event.message 1 ClientMsg.listener] = true ∧
    (run [Event.connect 1, Event.message 1 (ClientMsg.transmitter true),
        Event.message 1 ClientMsg.listener]).1.transmitterSocket = some 1 ∧
    1 ∈ (run [Event.connect 1, Event.message 1 (ClientMsg.transmitter true),
        Event.message 1 ClientMsg.listener]).1.listeners := by
  decide

/-- Claim C9 (amended): along every realizable event sequence in which no
connection registers as transmitter while in the listener set and no
connection registers as listener while it is the registered transmitter, no
connection is ever simultaneously the registered transmitter and a member of
the listener set (the transmitter slot holding at most one connection by
construction). -/
theorem c9_no_dual_role_without_swap (t : List Event)
    (h : noRoleSwapFrom initState t = true) (c : Nat) :
    ¬((run t).1.transmitterSocket = some c ∧ c ∈ (run t).1.listeners) := by
  intro hcon
  have hinv : RolesDisjoint initState := by
    intro d hd
    simp [initState] at hd
  exact rolesDisjoint_runFrom t initState hinv h c hcon.1 hcon.2

/-- Claim C9 witness: a normal trace — transmitter 1 registers, then a fresh
connection 2 joins as listener — satisfies the no-cross-registration side
condition, and connection 2 is not both transmitter and listener. -/
theorem c9_no_dual_role_without_swap_witness :
    ¬((run [Event.connect 1, Event.message 1 (ClientMsg.transmitter true),
          Event.connect 2, Event.message 2 ClientMsg.listener]).1.transmitterSocket
        = some 2 ∧
      2 ∈ (run [Event.connect 1, Event.message 1 (ClientMsg.transmitter true),
          Event.connect 2, Event.message 2 ClientMsg.listener]).1.listeners) :=
  c9_no_dual_role_without_swap
    [Event.connect 1, Event.message 1 (ClientMsg.transmitter true),
     Event.connect 2, Event.message 2 ClientMsg.listener] (by decide) 2

/-- Claim C10: when the current transmitter `c` sends `stop`, its
per-connection role stays `'transmitter'`, so the later `close` event (the
server closed the socket) re-executes the transmitter branch of the close
handler: any open listener `l` receives `broadcast-end` from the stop
handler and again from the close handler, and the snapshot is republished
(as not-live with the unchanged listener count) by both. -/
theorem c10_stop_then_close_double_end (st : ServerState) (c l : Nat)
    (hrole : st.role c = some Role.transmitter)
    (hl : l ∈ st.listeners) (hop : st.status l = ConnStatus.opened) (hne : l ≠ c) :
    (step st (Event.message c ClientMsg.stop)).1.role c = some Role.transmitter ∧
    (l, ServerMsg.broadcastEnd) ∈ (step st (Event.message c ClientMsg.stop)).2 ∧
    (step st (Event.message c ClientMsg.stop)).1.snapshot
      = ⟨false, st.listeners.length⟩ ∧
    (l, ServerMsg.broadcastEnd)
      ∈ (step (step st (Event.message c ClientMsg.stop)).1 (Event.closeEvt c)).2 ∧
    (step (step st (Event.message c ClientMsg.stop)).1 (Event.closeEvt c)).1.snapshot
      = ⟨false, st.listeners.length⟩ := by
  have hs := stop_step_eq st c hrole
  have hrole2 : (step st (Event.message c ClientMsg.stop)).1.role c
      = some Role.transmitter := by
    rw [hs]
    exact hrole
  have hcl := close_transmitter_step_eq (step st (Event.message c ClientMsg.stop)).1 c hrole2
  refine ⟨hrole2, ?_, ?_, ?_, ?_⟩
  · rw [hs]
    exact mem_broadcastJSON hl hop
  · rw [hs]
  · rw [hcl, hs]
    refine mem_broadcastJSON hl ?_
    show Function.update (Function.update st.status c ConnStatus.closing) c
      ConnStatus.closed l = ConnStatus.opened
    rw [Function.update_noteq hne, Function.update_noteq hne]
    exact hop
  · rw [hcl, hs]

/-- Claim C10 witness: with transmitter 1 and open listener 2, listener 2
receives the close-handler's second `broadcast-end` after the stop-close
sequence. -/
theorem c10_stop_then_close_double_end_witness :
    (2, ServerMsg.broadcastEnd)
      ∈ (step (step (run [Event.connect 1, Event.connect 2,
            Event.message 2 ClientMsg.listener,
            Event.message 1 (ClientMsg.transmitter true)]).1
          (Event.message 1 ClientMsg.stop)).1 (Event.closeEvt 1)).2 :=
  (c10_stop_then_close_double_end (run [Event.connect 1, Event.connect 2,
      Event.message 2 ClientMsg.listener,
      Event.message 1 (ClientMsg.transmitter true)]).1 1 2
    (by decide) (by decide) (by decide) (by decide)).2.2.2.1

end Maktab
